import Mathlib

/-!
Verification of the RoPY client (src/RoPY.py) against its specification.

The Python source is shallowly embedded: each Python function used by the
claims becomes a Lean definition of the same name.  Python `str` values are
Lean `String`s (ASCII fragment: the Unicode-only behaviours of `str.isdigit`,
`str.lower` and `str.strip` outside ASCII are not modelled, and no claim
exercises them).  JSON values are the inductive `JsonVal`, with JSON numbers
restricted to integers (no claim depends on fractional payload numbers).
Floating-point arithmetic of the backoff policy is modelled over `ℚ`; the
random jitter draw becomes an explicit parameter.
-/

/-- JSON values as produced by `json.loads`.  Numbers are modelled as
integers; object fields are an association list (on duplicate keys the last
occurrence wins, as in `json.loads`). -/
inductive JsonVal where
  | null : JsonVal
  | bool (b : Bool) : JsonVal
  | num (n : Int) : JsonVal
  | str (s : String) : JsonVal
  | arr (l : List JsonVal) : JsonVal
  | obj (l : List (String × JsonVal)) : JsonVal
deriving BEq, Repr

/-- Python truthiness (`bool(x)`) on JSON values: `None`, `False`, `0`, `""`,
`[]` and `{}` are falsy, everything else truthy. -/
def pyTruthy : JsonVal → Bool
  | JsonVal.null => false
  | JsonVal.bool b => b
  | JsonVal.num n => n != 0
  | JsonVal.str s => s != ""
  | JsonVal.arr l => !l.isEmpty
  | JsonVal.obj l => !l.isEmpty

/-- `dict.get(key)`: the value stored under `key`, if any.  Later pairs
shadow earlier ones (last occurrence wins, matching dict construction by
`json.loads`). -/
def pyGet (data : List (String × JsonVal)) (key : String) : Option JsonVal :=
  data.foldl (fun acc p => if p.1 = key then some p.2 else acc) none

/-- Python `str()` of a scalar JSON value.  Containers are rendered through
`pyReprFuel`; no claim inspects the rendering of a container. -/
def pyReprFuel : Nat → JsonVal → String
  | 0, _ => ""
  | _ + 1, JsonVal.null => "None"
  | _ + 1, JsonVal.bool b => if b then "True" else "False"
  | _ + 1, JsonVal.num n => toString n
  | _ + 1, JsonVal.str s => s
  | fuel + 1, JsonVal.arr l =>
      "[" ++ String.intercalate ", " (l.map (pyReprFuel fuel)) ++ "]"
  | fuel + 1, JsonVal.obj l =>
      "\x7b" ++
        String.intercalate ", " (l.map (fun p => p.1 ++ ": " ++ pyReprFuel fuel p.2)) ++
      "\x7d"

mutual

/-- Structural size of a JSON value (fuel bound for rendering). -/
def jsonSize : JsonVal → Nat
  | JsonVal.null => 1
  | JsonVal.bool _ => 1
  | JsonVal.num _ => 1
  | JsonVal.str _ => 1
  | JsonVal.arr l => 1 + jsonSizeList l
  | JsonVal.obj l => 1 + jsonSizePairs l

def jsonSizeList : List JsonVal → Nat
  | [] => 0
  | v :: t => jsonSize v + jsonSizeList t

def jsonSizePairs : List (String × JsonVal) → Nat
  | [] => 0
  | p :: t => jsonSize p.2 + jsonSizePairs t

end

/-- Python `str(v)` for a JSON value (fuelled by the value's size; the fuel
is never exhausted on the scalar cases any claim evaluates). -/
def pyStr (v : JsonVal) : String := pyReprFuel (jsonSize v) v

-- ---------------------------------------------------------------------------
-- Constants (src/RoPY.py lines 19-32)
-- ---------------------------------------------------------------------------

def MAX_RETRIES : Nat := 3
def BASE_RETRY_DELAY : ℚ := 1
def MAX_RETRY_DELAY : ℚ := 30
def MAX_ID_LENGTH : Nat := 12
def MAX_USER_ID : Nat := 10000000000

def ALLOWED_URL_SCHEMES : List String := ["https", "http"]

def ALLOWED_AVATAR_DOMAINS : List String :=
  ["roblox.com", "rbxcdn.com", "tr.rbxcdn.com", "t0.rbxcdn.com", "t1.rbxcdn.com",
   "t2.rbxcdn.com", "t3.rbxcdn.com", "t4.rbxcdn.com", "t5.rbxcdn.com",
   "t6.rbxcdn.com", "t7.rbxcdn.com"]

-- ---------------------------------------------------------------------------
-- Backoff policy: calculate_retry_delay (src/RoPY.py lines 34-50)
-- ---------------------------------------------------------------------------

/-- The deterministic part of the backoff delay:
`min(BASE_RETRY_DELAY * 2 ** attempt, MAX_RETRY_DELAY)`. -/
def backoff_base (attempt : Nat) : ℚ :=
  min (BASE_RETRY_DELAY * 2 ^ attempt) MAX_RETRY_DELAY

/-- `calculate_retry_delay(attempt)` with the random draw
`jitter = random.uniform(0, delay * 0.5)` made an explicit parameter.
Returns `delay + jitter`. -/
def calculate_retry_delay (attempt : Nat) (jitter : ℚ) : ℚ :=
  backoff_base attempt + jitter

-- ---------------------------------------------------------------------------
-- Identifier validator: validate_user_id (src/RoPY.py lines 361-424)
-- ---------------------------------------------------------------------------

/-- The distinct rejection branches of `validate_user_id`, one per printed
error message, in source order. -/
inductive UserIdError where
  | EmptyInput      -- "Error: ID cannot be empty."
  | NonNumeric      -- "Error: ID must contain only numbers."
  | LeadingZero     -- "Error: ID cannot have leading zeros."
  | TooLong         -- "Error: ID is too long (maximum 12 digits)."
  | ParseOverflow   -- "Error: ID is not a valid number."
  | NonPositive     -- "Error: ID must be a positive number."
  | ExceedsMaximum  -- "Error: ID exceeds maximum allowed value (10,000,000,000)."
deriving BEq, DecidableEq, Repr

/-- The characters `str.strip()` removes (ASCII fragment: space, TAB, LF,
CR, vertical tab, form feed). -/
def pyIsSpace (c : Char) : Bool :=
  c == ' ' || c == '\t' || c == '\n' || c == '\r' || c == '\x0b' || c == '\x0c'

/-- `str.strip()`: leading and trailing whitespace removed. -/
def pyStrip (s : String) : String :=
  String.mk (((s.data.dropWhile pyIsSpace).reverse.dropWhile pyIsSpace).reverse)

/-- `str.lower()` on the ASCII fragment. -/
def pyLower (s : String) : String :=
  String.mk (s.data.map Char.toLower)

/-- `str.isdigit()` on the ASCII fragment: non-empty and every character a
decimal digit.  (Python also accepts non-ASCII Unicode digit characters,
which are outside this model; on those, and only those, `int()` can then
fail, reaching the ParseOverflow branch.) -/
def pyIsDigit (s : String) : Bool :=
  s != "" && s.data.all Char.isDigit

/-- `int(s)` on a string of ASCII decimal digits. -/
def pyIntOfDigits (s : String) : Option Nat :=
  if pyIsDigit s then
    some (s.data.foldl (fun acc c => acc * 10 + (c.toNat - 48)) 0)
  else
    none

/-- `validate_user_id` (the source returns `bool` and prints one distinct
message per rejection branch; the embedding returns the branch taken). -/
def validate_user_id (user_id : String) : Except UserIdError Nat :=
  let stripped_id := pyStrip user_id
  if stripped_id = "" then Except.error UserIdError.EmptyInput
  else if !(pyIsDigit stripped_id) then Except.error UserIdError.NonNumeric
  else if stripped_id.length > 1 && stripped_id.front == '0' then
    Except.error UserIdError.LeadingZero
  else if stripped_id.length > MAX_ID_LENGTH then Except.error UserIdError.TooLong
  else
    match pyIntOfDigits stripped_id with
    | none => Except.error UserIdError.ParseOverflow
    | some user_id_int =>
      if user_id_int ≤ 0 then Except.error UserIdError.NonPositive
      else if user_id_int > MAX_USER_ID then Except.error UserIdError.ExceedsMaximum
      else Except.ok user_id_int

-- ---------------------------------------------------------------------------
-- URL sanitizer: validate_avatar_url (src/RoPY.py lines 53-96)
-- The fragment of `urllib.parse.urlparse` it consults (scheme and netloc),
-- modelled on CPython >= 3.11.
-- ---------------------------------------------------------------------------

/-- `urllib.parse` scheme characters: ASCII letters, digits, `+`, `-`, `.`. -/
def isSchemeChar (c : Char) : Bool :=
  c.isAlpha || c.isDigit || c == '+' || c == '-' || c == '.'

/-- `urlsplit` input cleaning: leading WHATWG C0-control-or-space characters
are stripped, then every TAB, CR and LF is removed. -/
def pyUrlClean (s : String) : List Char :=
  (s.data.dropWhile (fun c => c.toNat ≤ 0x20)).filter
    (fun c => !(c == '\t' || c == '\r' || c == '\n'))

/-- The scheme-splitting step of `urlsplit`: a leading `name:` is a scheme
when the colon is not first, the first character is an ASCII letter and every
character before the colon is a scheme character; the scheme is lower-cased. -/
def splitScheme (url : List Char) : String × List Char :=
  match url.findIdx? (fun c => c == ':') with
  | some i =>
    if i != 0 && url.head?.any Char.isAlpha && (url.take i).all isSchemeChar then
      (pyLower (String.mk (url.take i)), url.drop (i + 1))
    else ("", url)
  | none => ("", url)

/-- `_splitnetloc`: the netloc extends to the first `/`, `?` or `#`. -/
def splitNetlocChars (rest : List Char) : List Char :=
  rest.takeWhile (fun c => !(c == '/' || c == '?' || c == '#'))

/-- A hexadecimal digit character. -/
def isHexChar (c : Char) : Bool :=
  c.isDigit || (0x61 ≤ c.toNat && c.toNat ≤ 0x66) || (0x41 ≤ c.toNat && c.toNat ≤ 0x46)

/-- Model of `_check_bracketed_host`: the text between the first `[` and the
following `]` must be an IPvFuture literal (starting with `v`) or a valid
IPv6 address.  Validity is approximated: IPvFuture forms are accepted by
their leading `v`, and IPv6 forms as non-empty strings of hex digits, `:`
and `.` containing at least one `:`.  (Full RFC validation is not modelled;
the approximation agrees with CPython on every input evaluated below.) -/
def bracketedHostOk (netloc : List Char) : Bool :=
  let host := ((netloc.dropWhile (fun c => c != '[')).drop 1).takeWhile (fun c => c != ']')
  if host.head? == some 'v' then true
  else
    !host.isEmpty && host.all (fun c => isHexChar c || c == ':' || c == '.') &&
      host.contains ':'

/-- The scheme and netloc components of `urllib.parse.urlparse(url)`, with
`none` for a raised `ValueError` (mismatched brackets or an invalid
bracketed host).  Path, query and fragment are dropped: `validate_avatar_url`
reads only `scheme` and `netloc`. -/
def urlsplitSchemeNetloc (url : String) : Option (String × String) :=
  let u := pyUrlClean url
  let (scheme, rest) := splitScheme u
  if rest.take 2 == ['/', '/'] then
    let netloc := splitNetlocChars (rest.drop 2)
    let hasL := netloc.contains '['
    let hasR := netloc.contains ']'
    if hasL != hasR then none
    else if hasL && hasR then
      if bracketedHostOk netloc then some (scheme, String.mk netloc) else none
    else some (scheme, String.mk netloc)
  else some (scheme, "")

/-- `str.endswith(suffix)`: the characters of `suffix` are a suffix of the
characters of `s`. -/
def pyEndsWith (s suffix : String) : Bool :=
  decide (suffix.data <:+ s.data)

/-- The allow-list test of `validate_avatar_url`:
`any(domain == allowed or domain.endswith('.' + allowed) for allowed in
ALLOWED_AVATAR_DOMAINS)`. -/
def domainAllowed (domain : String) : Bool :=
  ALLOWED_AVATAR_DOMAINS.any
    (fun allowed => domain == allowed || pyEndsWith domain ("." ++ allowed))

/-- The `try:` body of `validate_avatar_url` on a string URL: parse, then
check the scheme, a non-empty netloc, and the allow-list on the lower-cased
netloc; a parse `ValueError` lands in the `except` arm.  On success the URL
is returned unchanged. -/
def avatar_url_check (url : String) : String :=
  match urlsplitSchemeNetloc url with
  | none => "Invalid URL"
  | some (scheme, netloc) =>
    if !(ALLOWED_URL_SCHEMES.contains scheme) then "Invalid URL"
    else if netloc == "" then "Invalid URL"
    else if !(domainAllowed (pyLower netloc)) then "Invalid URL"
    else url

/-- `validate_avatar_url(url)` on the JSON value the pipeline passes in.
`if not url or url == "Unknown"` uses Python truthiness, so any falsy value
gives "Not available"; the `== "Unknown"` comparison can only succeed on a
string (Python `==` across types is `False` here), and a truthy non-string
then fails `isinstance(url, str)`. -/
def validate_avatar_url (v : JsonVal) : String :=
  if pyTruthy v = false then "Not available"
  else
    match v with
    | JsonVal.str s => if s = "Unknown" then "Not available" else avatar_url_check s
    | _ => "Invalid URL"

-- ---------------------------------------------------------------------------
-- Date parser: parse_date (src/RoPY.py lines 313-337) and the fragment of
-- `datetime.strptime` / `strftime` it uses.
-- ---------------------------------------------------------------------------

/-- The fields `strptime` extracts for the two formats in use. -/
structure PyDateTime where
  year : Nat
  month : Nat
  day : Nat
  hour : Nat
  minute : Nat
  second : Nat
  microsec : Nat
deriving DecidableEq, Repr

/-- Numeric value of a decimal digit character. -/
def digitVal (c : Char) : Nat := c.toNat - 48

/-- `%Y`: exactly four digits. -/
def parse4Digits (l : List Char) : Option (Nat × List Char) :=
  match l with
  | a :: b :: c :: d :: rest =>
    if a.isDigit && b.isDigit && c.isDigit && d.isDigit then
      some (digitVal a * 1000 + digitVal b * 100 + digitVal c * 10 + digitVal d, rest)
    else none
  | _ => none

/-- A one- or two-digit numeric field of `strptime`.  The underlying regex
alternation (e.g. `1[0-2]|0[1-9]|[1-9]` for `%m`) consumes two digits
whenever two are available — the two-digit value must then lie in
`[lo2, hi2]`, since the format character that follows each such field is
never a digit, so single-digit backtracking cannot rescue the match — and
otherwise consumes one digit, whose value must lie in `[lo1, hi1]`. -/
def parseNumField (lo2 hi2 lo1 hi1 : Nat) (l : List Char) : Option (Nat × List Char) :=
  match l with
  | a :: b :: rest =>
    if a.isDigit && b.isDigit then
      let v := digitVal a * 10 + digitVal b
      if lo2 ≤ v && v ≤ hi2 then some (v, rest) else none
    else if a.isDigit then
      let v := digitVal a
      if lo1 ≤ v && v ≤ hi1 then some (v, b :: rest) else none
    else none
  | [a] =>
    if a.isDigit then
      let v := digitVal a
      if lo1 ≤ v && v ≤ hi1 then some (v, []) else none
    else none
  | [] => none

/-- A literal format character; `strptime` compiles its pattern with
`re.IGNORECASE`, so letters match case-insensitively. -/
def parseLit (c : Char) (l : List Char) : Option (List Char) :=
  match l with
  | x :: rest => if x.toLower == c.toLower then some rest else none
  | [] => none

/-- `%f`: one to six digits, zero-padded on the right to microseconds.
(On seven or more consecutive digits the whole match fails: the character
after the consumed digits must be the literal `Z`.) -/
def parseFrac (l : List Char) : Option (Nat × List Char) :=
  let ds := l.takeWhile Char.isDigit
  let rest := l.dropWhile Char.isDigit
  if ds.length == 0 || ds.length > 6 then none
  else some (ds.foldl (fun a c => a * 10 + digitVal c) 0 * 10 ^ (6 - ds.length), rest)

def isLeapYear (y : Nat) : Bool :=
  y % 4 == 0 && (y % 100 != 0 || y % 400 == 0)

def daysInMonth (y m : Nat) : Nat :=
  if m == 2 then (if isLeapYear y then 29 else 28)
  else if m == 4 || m == 6 || m == 9 || m == 11 then 30
  else 31

/-- Validity enforced by the `datetime(...)` constructor: `MINYEAR ≤ year`
and the day must exist in the month (the remaining ranges are already
enforced by the field patterns). -/
def datetimeValid (dt : PyDateTime) : Bool :=
  1 ≤ dt.year && 1 ≤ dt.day && dt.day ≤ daysInMonth dt.year dt.month

/-- `datetime.strptime(s, fmt)` for `fmt = "%Y-%m-%dT%H:%M:%S.%fZ"`
(`withFrac = true`) and `fmt = "%Y-%m-%dT%H:%M:%SZ"` (`withFrac = false`).
The compiled pattern must span the entire string, and the extracted fields
must form a valid `datetime`. -/
def strptimeIso (withFrac : Bool) (s : String) : Option PyDateTime := do
  let l0 := s.data
  let (y, l1) ← parse4Digits l0
  let l2 ← parseLit '-' l1
  let (mo, l3) ← parseNumField 1 12 1 9 l2
  let l4 ← parseLit '-' l3
  let (dy, l5) ← parseNumField 1 31 1 9 l4
  let l6 ← parseLit 'T' l5
  let (hr, l7) ← parseNumField 0 23 0 9 l6
  let l8 ← parseLit ':' l7
  let (mi, l9) ← parseNumField 0 59 0 9 l8
  let l10 ← parseLit ':' l9
  let (se, l11) ← parseNumField 0 59 0 9 l10
  let (us, l12) ←
    if withFrac then do
      let ld ← parseLit '.' l11
      parseFrac ld
    else pure (0, l11)
  let l13 ← parseLit 'Z' l12
  if !l13.isEmpty then none
  else
    let dt : PyDateTime := ⟨y, mo, dy, hr, mi, se, us⟩
    if datetimeValid dt then some dt else none

/-- Zero-padding to two digits for `strftime`. -/
def pad2 (n : Nat) : String := if n < 10 then "0" ++ toString n else toString n

/-- `datetime.strftime("%Y-%m-%d %H:%M:%S")`.  (`%Y` renders without padding
for years below 1000, as the glibc `strftime` does.) -/
def pyStrftime (dt : PyDateTime) : String :=
  toString dt.year ++ "-" ++ pad2 dt.month ++ "-" ++ pad2 dt.day ++ " " ++
    pad2 dt.hour ++ ":" ++ pad2 dt.minute ++ ":" ++ pad2 dt.second

/-- `parse_date(date_str)` as the pipeline invokes it on
`data.get("created")` (`none` = key absent, so the Python argument is
`None`).  The guard `date_str is None or not date_str or
date_str == "Unknown"` uses Python truthiness, so every falsy value returns
"Unknown"; a truthy non-string then fails `isinstance(date_str, str)`; a
string is tried against the fractional-seconds format first, then the
whole-seconds format, the first success being reformatted. -/
def parse_date (date_str : Option JsonVal) : String :=
  match date_str with
  | none => "Unknown"
  | some v =>
    if pyTruthy v = false then "Unknown"
    else
      match v with
      | JsonVal.str s =>
        if s = "Unknown" then "Unknown"
        else
          match strptimeIso true s with
          | some dt => pyStrftime dt
          | none =>
            match strptimeIso false s with
            | some dt => pyStrftime dt
            | none => "Invalid date format"
      | _ => "Invalid date format"

-- ---------------------------------------------------------------------------
-- Payload validation and record building (src/RoPY.py lines 99-158, 224-252)
-- ---------------------------------------------------------------------------

/-- The body of one HTTP response, as far as `validate_json_response`
observes it: empty (or whitespace-only) text, text that fails JSON parsing,
or a parsed JSON value. -/
inductive BodyModel where
  | emptyBody
  | unparsable
  | value (v : JsonVal)
deriving BEq, Repr

/-- `validate_json_response` (lines 99-132): the Content-Type inspection
only logs; an empty body, a `JSONDecodeError`, or a parsed value that is not
a dict give `None`. -/
def validate_json_response : BodyModel → Option (List (String × JsonVal))
  | BodyModel.emptyBody => none
  | BodyModel.unparsable => none
  | BodyModel.value (JsonVal.obj fields) => some fields
  | BodyModel.value _ => none

/-- `safe_get_count` (lines 135-158): absent or `None` gives
"Not available"; `isinstance(value, (int, float))` also accepts `bool` (a
subclass of `int` in Python), negative values are rejected, and the value is
rendered as `str(int(value))`; any other type gives "Not available". -/
def safe_get_count (data : List (String × JsonVal)) (field : String) : String :=
  match pyGet data field with
  | none => "Not available"
  | some JsonVal.null => "Not available"
  | some (JsonVal.num n) => if n < 0 then "Not available" else toString n
  | some (JsonVal.bool b) => if b then "1" else "0"
  | some _ => "Not available"

/-- The `user_info` dictionary of `fetch_user_information` (lines 237-245),
without the wall-clock `latency` field (real time is outside the model). -/
structure UserRecord where
  username : String
  display_name : String
  created_date : String
  avatar_url : String
  followers_count : String
  friends_count : String
deriving BEq, DecidableEq, Repr

/-- `str(data.get(key, "Unknown")) if data.get(key) else "Unknown"`
(lines 238-239): a falsy or absent value gives "Unknown", a truthy value is
coerced with `str()`. -/
def extract_name (data : List (String × JsonVal)) (key : String) : String :=
  match pyGet data key with
  | none => "Unknown"
  | some v => if pyTruthy v then pyStr v else "Unknown"

/-- Building `user_info` (lines 233-245): each field is extracted and
coerced independently from the validated dict. -/
def build_user_record (data : List (String × JsonVal)) : UserRecord :=
  { username := extract_name data "name"
    display_name := extract_name data "displayName"
    created_date := parse_date (pyGet data "created")
    avatar_url := validate_avatar_url
      (match pyGet data "avatarUrl" with
       | none => JsonVal.str ""
       | some v => v)
    followers_count := safe_get_count data "followersCount"
    friends_count := safe_get_count data "friendsCount" }

-- ---------------------------------------------------------------------------
-- Fetch orchestrator: fetch_user_information (src/RoPY.py lines 161-311)
-- ---------------------------------------------------------------------------

/-- What one `session.get` produces: a response (status code, `Retry-After`
header, body) or a `ConnectionError`/`Timeout` raised during the request.
The header field models `response.headers.get('Retry-After')` composed with
`float()`: `none` = header absent or empty (falsy, so skipped), `some none`
= present but `float()` raises, `some (some q)` = parses to `q`. -/
inductive AttemptResult where
  | response (status : Nat) (retryAfterHdr : Option (Option ℚ)) (body : BodyModel)
  | connError
deriving BEq, Repr

/-- The classification of one attempt, following the source's control flow:
404 and 429 are tested before `raise_for_status()`; `raise_for_status`
raises `HTTPError` exactly for statuses 400-599, whose handler distinguishes
400, 401, 403 and >= 500 from the generic remainder; every other status
falls through to body validation. -/
inductive Outcome where
  | success (fields : List (String × JsonVal))
  | notFound
  | rateLimited (hint : Option (Option ℚ))
  | badRequest
  | authRequired
  | forbidden
  | otherHttp (status : Nat)
  | serverError (status : Nat)
  | transportError
  | malformedBody
deriving BEq, Repr

def classify : AttemptResult → Outcome
  | AttemptResult.connError => Outcome.transportError
  | AttemptResult.response status retryAfterHdr body =>
    if status == 404 then Outcome.notFound
    else if status == 429 then Outcome.rateLimited retryAfterHdr
    else if 400 ≤ status && status < 600 then
      if status == 400 then Outcome.badRequest
      else if status == 401 then Outcome.authRequired
      else if status == 403 then Outcome.forbidden
      else if 500 ≤ status then Outcome.serverError status
      else Outcome.otherHttp status
    else
      match validate_json_response body with
      | none => Outcome.malformedBody
      | some fields => Outcome.success fields

/-- The outcomes the source answers with a sleep and another iteration. -/
def outcome_retryable : Outcome → Bool
  | Outcome.rateLimited _ => true
  | Outcome.serverError _ => true
  | Outcome.transportError => true
  | _ => false

/-- `hint_nonneg o` says the outcome carries no negative parsed
`Retry-After` hint — the condition under which the 429 path's
`time.sleep` receives a non-negative argument and cannot raise. -/
def hint_nonneg : Outcome → Prop
  | Outcome.rateLimited (some (some q)) => 0 ≤ q
  | _ => True

/-- The terminal results of `fetch_user_information`, one per distinct
terminal message printed by the source. -/
inductive FetchResult where
  | success (record : UserRecord)
  | notFound
  | invalidResponse
  | badRequest
  | authRequired
  | forbidden
  | httpOther (status : Nat)
  | rateLimitExceeded
  | serverUnavailable
  | networkError
  | unexpectedError   -- "An unexpected error occurred. ..." (except Exception, line 305)
deriving BEq, DecidableEq, Repr

/-- What one loop iteration does after classification: terminate with a
result, or sleep for `delay` seconds and run the next attempt. -/
inductive StepResult where
  | done (r : FetchResult)
  | retry (delay : ℚ)
deriving BEq, DecidableEq, Repr

/-- Discriminator: whether a loop step retries. -/
def StepResult.isRetry : StepResult → Bool
  | StepResult.retry _ => true
  | StepResult.done _ => false

/-- `time.sleep(delay)` at line 214 followed by `continue`: `time.sleep`
raises `ValueError` on a negative argument, and that exception — raised in
the `try:` body, not inside a handler — is caught by `except Exception`
(line 305), which prints "An unexpected error occurred." and returns;
otherwise the loop proceeds to the next attempt. -/
def sleep_then_continue (delay : ℚ) : StepResult :=
  if delay < 0 then StepResult.done FetchResult.unexpectedError
  else StepResult.retry delay

/-- One iteration of the retry loop at `attempt` (0-indexed), with the
jitter drawn for this iteration.  Retryable outcomes retry only while
`attempt < MAX_RETRIES - 1`; on a rate limit the computed backoff is
replaced by a parsed `Retry-After` hint capped at `MAX_RETRY_DELAY`
(lines 200-215), and the following `time.sleep` fails into the
unexpected-error terminal when that delay is negative; on the last attempt
each retryable outcome becomes its own exhaustion result (lines 216-219,
278-280, 297-298).

The sleeps of the server-error and connection-error paths (lines 276, 295)
receive `calculate_retry_delay(attempt)` = `base + uniform(0, base * 0.5)`
with `base ≥ 1`, which is positive for every draw the program can make, so
those sleeps never raise and are modelled as succeeding.  (They also sit
inside `except` handler blocks: a hypothetical `ValueError` there would
propagate uncaught rather than reach line 305.) -/
def fetch_step (attempt : Nat) (jitter : ℚ) : Outcome → StepResult
  | Outcome.success fields =>
    StepResult.done (FetchResult.success (build_user_record fields))
  | Outcome.notFound => StepResult.done FetchResult.notFound
  | Outcome.rateLimited hint =>
    if attempt < MAX_RETRIES - 1 then
      sleep_then_continue
        (match hint with
         | some (some q) => min q MAX_RETRY_DELAY
         | _ => calculate_retry_delay attempt jitter)
    else StepResult.done FetchResult.rateLimitExceeded
  | Outcome.badRequest => StepResult.done FetchResult.badRequest
  | Outcome.authRequired => StepResult.done FetchResult.authRequired
  | Outcome.forbidden => StepResult.done FetchResult.forbidden
  | Outcome.otherHttp s => StepResult.done (FetchResult.httpOther s)
  | Outcome.serverError _ =>
    if attempt < MAX_RETRIES - 1 then
      StepResult.retry (calculate_retry_delay attempt jitter)
    else StepResult.done FetchResult.serverUnavailable
  | Outcome.transportError =>
    if attempt < MAX_RETRIES - 1 then
      StepResult.retry (calculate_retry_delay attempt jitter)
    else StepResult.done FetchResult.networkError
  | Outcome.malformedBody => StepResult.done FetchResult.invalidResponse

/-- The `for attempt in range(MAX_RETRIES)` loop.  `env n` is what the n-th
`session.get` produces and `jitter n` the jitter drawn at attempt `n`.
Returns the terminal result and the number of HTTP attempts issued.  The
fuel (`MAX_RETRIES` at the top call) always suffices, since a retry is only
produced while `attempt < MAX_RETRIES - 1`. -/
def fetch_loop (env : Nat → AttemptResult) (jitter : Nat → ℚ) :
    Nat → Nat → FetchResult × Nat
  | _, 0 => (FetchResult.networkError, 0)
  | attempt, fuel + 1 =>
    match fetch_step attempt (jitter attempt) (classify (env attempt)) with
    | StepResult.done r => (r, 1)
    | StepResult.retry _ =>
      let rest := fetch_loop env jitter (attempt + 1) fuel
      (rest.1, rest.2 + 1)

/-- `fetch_user_information` as a function of the sequence of attempt
results: the terminal result and how many HTTP attempts were issued. -/
def fetch_user_information (env : Nat → AttemptResult) (jitter : Nat → ℚ) :
    FetchResult × Nat :=
  fetch_loop env jitter 0 MAX_RETRIES

-- ---------------------------------------------------------------------------
-- Claims
-- ---------------------------------------------------------------------------

/-- C2 (counterexample): at attempt 5 the jitter draw 15 lies in the claimed
range `[0, 0.5 * min(BASE_DELAY * 2^5, MAX_DELAY)]`, yet the delay returned
by `calculate_retry_delay` is 45 seconds, exceeding MAX_DELAY = 30: the
jitter is added after the cap, so the returned delay is not always
≤ MAX_DELAY. -/
theorem c2_counterexample_delay_exceeds_max :
    (0 : ℚ) ≤ 15 ∧ (15 : ℚ) ≤ backoff_base 5 * (1 / 2) ∧
    calculate_retry_delay 5 15 = 45 ∧
    ¬(calculate_retry_delay 5 15 ≤ MAX_RETRY_DELAY) := by
  norm_num [backoff_base, calculate_retry_delay, BASE_RETRY_DELAY, MAX_RETRY_DELAY]

/-- C2 (amended): the pre-jitter component `min(BASE_DELAY * 2^n, MAX_DELAY)`
is monotonically non-decreasing in the attempt number and always ≤ MAX_DELAY
= 30 s; for every jitter draw in `[0, 0.5 * component]` the returned delay is
≥ the deterministic component (jitter only adds) and ≤ 1.5 × MAX_DELAY. -/
theorem c2_backoff_properties :
    (∀ n m : Nat, n ≤ m → backoff_base n ≤ backoff_base m)
    ∧ (∀ n : Nat, backoff_base n ≤ MAX_RETRY_DELAY)
    ∧ (∀ (n : Nat) (jitter : ℚ), 0 ≤ jitter → jitter ≤ backoff_base n * (1 / 2) →
        backoff_base n ≤ calculate_retry_delay n jitter ∧
        calculate_retry_delay n jitter ≤ MAX_RETRY_DELAY * (3 / 2)) := by
  refine ⟨?_, ?_, ?_⟩
  · intro n m h
    have h2 : (2 : ℚ) ^ n ≤ 2 ^ m := pow_le_pow_right₀ (by norm_num) h
    unfold backoff_base
    exact min_le_min (by simpa [BASE_RETRY_DELAY] using h2) le_rfl
  · intro n
    exact min_le_right _ _
  · intro n jitter h0 hj
    have hbase : backoff_base n ≤ MAX_RETRY_DELAY := min_le_right _ _
    have hmax : MAX_RETRY_DELAY = (30 : ℚ) := rfl
    constructor
    · unfold calculate_retry_delay
      linarith
    · unfold calculate_retry_delay
      rw [hmax] at hbase ⊢
      linarith

/-- C2 (witness for the amended theorem): at attempt 1 with jitter 1, the
returned delay lies between the deterministic component and 45 s. -/
theorem c2_backoff_properties_witness :
    backoff_base 1 ≤ calculate_retry_delay 1 1 ∧
    calculate_retry_delay 1 1 ≤ MAX_RETRY_DELAY * (3 / 2) :=
  c2_backoff_properties.2.2 1 1 (by norm_num)
    (by norm_num [backoff_base, BASE_RETRY_DELAY, MAX_RETRY_DELAY])

/-- C3: the identifier validator applies its checks in the fixed order
empty-after-strip → EmptyInput, non-digit → NonNumeric, leading zero →
LeadingZero, over-long → TooLong, then (parse, which cannot fail on ASCII
digits) value 0 → NonPositive, value above MAX_USER_ID → ExceedsMaximum,
each short-circuiting; with the spec's seven concrete examples. -/
theorem c3_validate_user_id_checks :
    (∀ s : String, pyStrip s = "" →
      validate_user_id s = Except.error UserIdError.EmptyInput)
    ∧ (∀ s : String, pyStrip s ≠ "" → pyIsDigit (pyStrip s) = false →
        validate_user_id s = Except.error UserIdError.NonNumeric)
    ∧ (∀ s : String, pyIsDigit (pyStrip s) = true → 1 < (pyStrip s).length →
        (pyStrip s).front = '0' →
        validate_user_id s = Except.error UserIdError.LeadingZero)
    ∧ (∀ s : String, pyIsDigit (pyStrip s) = true →
        ¬(1 < (pyStrip s).length ∧ (pyStrip s).front = '0') →
        MAX_ID_LENGTH < (pyStrip s).length →
        validate_user_id s = Except.error UserIdError.TooLong)
    ∧ (∀ (s : String) (v : Nat), pyIsDigit (pyStrip s) = true →
        ¬(1 < (pyStrip s).length ∧ (pyStrip s).front = '0') →
        (pyStrip s).length ≤ MAX_ID_LENGTH →
        pyIntOfDigits (pyStrip s) = some v →
        validate_user_id s =
          (if v ≤ 0 then Except.error UserIdError.NonPositive
           else if v > MAX_USER_ID then Except.error UserIdError.ExceedsMaximum
           else Except.ok v))
    ∧ validate_user_id "007" = Except.error UserIdError.LeadingZero
    ∧ validate_user_id "0" = Except.error UserIdError.NonPositive
    ∧ validate_user_id "" = Except.error UserIdError.EmptyInput
    ∧ validate_user_id "   " = Except.error UserIdError.EmptyInput
    ∧ validate_user_id "12a" = Except.error UserIdError.NonNumeric
    ∧ validate_user_id "99999999999999" = Except.error UserIdError.TooLong
    ∧ validate_user_id "10000000001" = Except.error UserIdError.ExceedsMaximum
    ∧ validate_user_id "123" = Except.ok 123 := by
  refine ⟨?_, ?_, ?_, ?_, ?_, rfl, rfl, rfl, rfl, rfl, rfl, rfl, rfl⟩
  · intro s h
    simp [validate_user_id, h]
  · intro s h1 h2
    simp [validate_user_id, h1, h2]
  · intro s h1 h2 h3
    have hne : pyStrip s ≠ "" := by
      intro he
      rw [he] at h1
      exact absurd h1 (by decide)
    simp [validate_user_id, hne, h1, h2, h3]
  · intro s h1 h2 h3
    have hne : pyStrip s ≠ "" := by
      intro he
      rw [he] at h1
      exact absurd h1 (by decide)
    simp only [validate_user_id, hne, h1, if_false, Bool.not_true, if_neg]
    simp [hne, h1, h2, h3]
  · intro s v h1 h2 h3 h4
    have hne : pyStrip s ≠ "" := by
      intro he
      rw [he] at h1
      exact absurd h1 (by decide)
    simp [validate_user_id, hne, h1, h2, h3, h4, Nat.not_lt.mpr h3]

/-- C3 (witness): a concrete input exercising the LeadingZero conjunct. -/
theorem c3_validate_user_id_checks_witness :
    validate_user_id "0042" = Except.error UserIdError.LeadingZero :=
  c3_validate_user_id_checks.2.2.1 "0042" (by decide) (by decide) (by decide)

/-- C9 (counterexample): the falsy non-string value 0 for "created" is
caught by the `not date_str` truthiness guard, so `parse_date` returns
"Unknown" where the claim requires "Invalid date format" for every
non-string input. -/
theorem c9_counterexample_falsy_non_string :
    parse_date (some (JsonVal.num 0)) = "Unknown" ∧
    parse_date (some (JsonVal.num 0)) ≠ "Invalid date format" := by
  exact ⟨rfl, by decide⟩

/-- C9 (amended): the date parser tries the fractional-seconds UTC format
first, then the whole-seconds UTC format, the first match winning and being
reformatted to `YYYY-MM-DD HH:MM:SS`; absent, empty, falsy (0, false, empty
containers) or "Unknown" input yields "Unknown"; truthy non-string input
yields "Invalid date format"; a string matching no format yields
"Invalid date format". -/
theorem c9_parse_date_characterization :
    parse_date none = "Unknown"
    ∧ parse_date (some (JsonVal.str "")) = "Unknown"
    ∧ parse_date (some (JsonVal.str "Unknown")) = "Unknown"
    ∧ (∀ v : JsonVal, pyTruthy v = false → parse_date (some v) = "Unknown")
    ∧ (∀ v : JsonVal, pyTruthy v = true → (∀ s : String, v ≠ JsonVal.str s) →
        parse_date (some v) = "Invalid date format")
    ∧ (∀ (s : String) (dt : PyDateTime), s ≠ "" → s ≠ "Unknown" →
        strptimeIso true s = some dt →
        parse_date (some (JsonVal.str s)) = pyStrftime dt)
    ∧ (∀ (s : String) (dt : PyDateTime), s ≠ "" → s ≠ "Unknown" →
        strptimeIso true s = none → strptimeIso false s = some dt →
        parse_date (some (JsonVal.str s)) = pyStrftime dt)
    ∧ (∀ s : String, s ≠ "" → s ≠ "Unknown" →
        strptimeIso true s = none → strptimeIso false s = none →
        parse_date (some (JsonVal.str s)) = "Invalid date format")
    ∧ parse_date (some (JsonVal.str "2020-01-01T00:00:00.123Z")) = "2020-01-01 00:00:00"
    ∧ parse_date (some (JsonVal.str "2020-01-01T00:00:00Z")) = "2020-01-01 00:00:00"
    ∧ parse_date (some (JsonVal.str "garbage")) = "Invalid date format" := by
  refine ⟨rfl, rfl, rfl, ?_, ?_, ?_, ?_, ?_, by decide, by decide, by decide⟩
  · intro v h
    simp [parse_date, h]
  · intro v h hns
    cases v with
    | str s => exact absurd rfl (hns s)
    | null => exact absurd h (by decide)
    | bool b => simp [parse_date, h]
    | num n => simp [parse_date, h]
    | arr l => simp [parse_date, h]
    | obj l => simp [parse_date, h]
  · intro s dt hne hU h1
    simp [parse_date, pyTruthy, bne_iff_ne, hne, hU, h1]
  · intro s dt hne hU h1 h2
    simp [parse_date, pyTruthy, bne_iff_ne, hne, hU, h1, h2]
  · intro s hne hU h1 h2
    simp [parse_date, pyTruthy, bne_iff_ne, hne, hU, h1, h2]

/-- C9 (witness for the amended theorem): a concrete whole-seconds
timestamp, reformatted after the fractional format fails first. -/
theorem c9_parse_date_characterization_witness :
    parse_date (some (JsonVal.str "1999-12-31T23:59:59Z")) =
      pyStrftime ⟨1999, 12, 31, 23, 59, 59, 0⟩ :=
  c9_parse_date_characterization.2.2.2.2.2.2.1 "1999-12-31T23:59:59Z"
    ⟨1999, 12, 31, 23, 59, 59, 0⟩ (by decide) (by decide) (by decide) (by decide)

/-- A string whose last character is a decimal digit can neither equal an
allow-list entry ending in `m` nor end with `"." ++` that entry. -/
theorem no_digit_last_allow (d a : String) (c : Char)
    (hlast : d.data.getLast? = some c) (hc : c.isDigit = true)
    (ha : a.data.getLast? = some 'm') :
    (d == a || pyEndsWith d ("." ++ a)) = false := by
  have hcm : c ≠ 'm' := fun h => absurd (h ▸ hc) (by decide)
  have hanil : a.data ≠ [] := by
    intro h
    rw [h] at ha
    exact Option.noConfusion ha
  cases hb : (d == a) with
  | true =>
    exfalso
    have hda : d = a := eq_of_beq hb
    rw [hda] at hlast
    exact hcm (Option.some.inj (hlast.symm.trans ha))
  | false =>
    simp only [Bool.false_or]
    cases he : pyEndsWith d ("." ++ a) with
    | false => rfl
    | true =>
      exfalso
      have hsuf : ("." ++ a).data <:+ d.data := by
        unfold pyEndsWith at he
        exact of_decide_eq_true he
      obtain ⟨t, htEq⟩ := hsuf
      have hdata : ("." ++ a).data = '.' :: a.data := by simp [String.data_append]
      rw [hdata] at htEq
      have hlast2 : d.data.getLast? = a.data.getLast? := by
        rw [← htEq, show t ++ ('.' :: a.data) = (t ++ ['.']) ++ a.data by simp]
        exact List.getLast?_append_of_ne_nil _ hanil
      rw [hlast2, ha] at hlast
      exact hcm (Option.some.inj hlast.symm)

/-- Every allow-list entry ends in `m`, so a domain string ending in a digit
(in particular a netloc carrying an explicit port) never passes the
allow-list test. -/
theorem domainAllowed_eq_false_of_digit_last (d : String) (c : Char)
    (hlast : d.data.getLast? = some c) (hc : c.isDigit = true) :
    domainAllowed d = false := by
  unfold domainAllowed
  rw [List.any_eq_false]
  intro a ha h
  simp only [ALLOWED_AVATAR_DOMAINS] at ha
  fin_cases ha <;>
    exact Bool.noConfusion
      ((no_digit_last_allow d _ c hlast hc (by decide)).symm.trans h)

/-- C1: the URL sanitizer returns the input unchanged exactly on the URLs
that parse with scheme "http"/"https", a non-empty host component and a
lower-cased host that passes the allow-list (equality with an entry or a
true `"." ++ entry` suffix); empty or "Unknown" input gives "Not available";
everything else — wrong scheme, empty host, non-allow-listed host such as
"evil-rbxcdn.com", unparsable input — gives "Invalid URL". -/
theorem c1_validate_avatar_url_characterization :
    (∀ url : String,
      validate_avatar_url (JsonVal.str url) =
        if url = "" ∨ url = "Unknown" then "Not available"
        else
          match urlsplitSchemeNetloc url with
          | none => "Invalid URL"
          | some sn =>
            if (sn.1 = "http" ∨ sn.1 = "https") ∧ sn.2 ≠ "" ∧
                domainAllowed (pyLower sn.2) = true then url
            else "Invalid URL")
    ∧ validate_avatar_url (JsonVal.str "https://t1.rbxcdn.com/x") = "https://t1.rbxcdn.com/x"
    ∧ validate_avatar_url (JsonVal.str "https://evil-rbxcdn.com/x") = "Invalid URL"
    ∧ validate_avatar_url (JsonVal.str "https://evil-roblox.com/x") = "Invalid URL"
    ∧ validate_avatar_url (JsonVal.str "ftp://roblox.com/x") = "Invalid URL"
    ∧ validate_avatar_url (JsonVal.str "") = "Not available"
    ∧ validate_avatar_url (JsonVal.str "Unknown") = "Not available"
    ∧ validate_avatar_url (JsonVal.str "not a url") = "Invalid URL" := by
  refine ⟨?_, by decide, by decide, by decide, by decide, by decide, by decide, by decide⟩
  intro url
  by_cases h0 : url = ""
  · subst h0; decide
  by_cases hU : url = "Unknown"
  · subst hU; decide
  · have ht : pyTruthy (JsonVal.str url) = true := by
      simp [pyTruthy, bne_iff_ne, h0]
    simp only [validate_avatar_url, ht, Bool.true_eq_false, if_neg, if_false]
    rw [if_neg hU, if_neg (by tauto : ¬(url = "" ∨ url = "Unknown"))]
    unfold avatar_url_check
    rcases hp : urlsplitSchemeNetloc url with _ | ⟨scheme, netloc⟩
    · rfl
    · have hc : ALLOWED_URL_SCHEMES.contains scheme =
          decide (scheme = "http" ∨ scheme = "https") := by
        by_cases h1 : scheme = "https" <;> by_cases h2 : scheme = "http" <;>
          simp [ALLOWED_URL_SCHEMES, List.contains, h1, h2]
      by_cases hs : scheme = "http" ∨ scheme = "https" <;>
        by_cases hn : netloc = "" <;>
          by_cases hd : domainAllowed (pyLower netloc) = true <;>
            simp [hc, hs, hn, hd] <;> simp [ALLOWED_URL_SCHEMES] <;> tauto

/-- C10 (counterexample): "https://user@x.roblox.com/a" carries userinfo in
its network location, whose hostname `x.roblox.com` is a true subdomain of
an allow-listed domain, yet the sanitizer returns the URL unchanged instead
of the claimed "Invalid URL": the netloc `user@x.roblox.com` still ends with
".roblox.com" textually. -/
theorem c10_counterexample_userinfo_accepted :
    urlsplitSchemeNetloc "https://user@x.roblox.com/a" =
      some ("https", "user@x.roblox.com")
    ∧ validate_avatar_url (JsonVal.str "https://user@x.roblox.com/a") =
      "https://user@x.roblox.com/a"
    ∧ validate_avatar_url (JsonVal.str "https://user@x.roblox.com/a") ≠
      "Invalid URL" := by
  exact ⟨by decide, by decide, by decide⟩

/-- C10 (amended): the allow-list match compares the full lower-cased
network-location component, so a netloc whose last character is a digit —
in particular one carrying an explicit port — is always rejected, and a
netloc with userinfo in front of a bare allow-listed hostname (e.g.
"https://user@roblox.com/x") is rejected; but a netloc with userinfo in
front of a strict subdomain still ends with `"." ++ domain` textually and is
accepted unchanged. -/
theorem c10_netloc_comparison :
    (∀ (url scheme netloc : String) (c : Char),
      urlsplitSchemeNetloc url = some (scheme, netloc) →
      (pyLower netloc).data.getLast? = some c → c.isDigit = true →
      avatar_url_check url = "Invalid URL")
    ∧ validate_avatar_url (JsonVal.str "https://roblox.com:443/x") = "Invalid URL"
    ∧ validate_avatar_url (JsonVal.str "https://user@roblox.com/x") = "Invalid URL"
    ∧ validate_avatar_url (JsonVal.str "https://user@x.roblox.com/a") =
      "https://user@x.roblox.com/a" := by
  refine ⟨?_, by decide, by decide, by decide⟩
  intro url scheme netloc c hp hlast hc
  have hd : domainAllowed (pyLower netloc) = false :=
    domainAllowed_eq_false_of_digit_last _ c hlast hc
  unfold avatar_url_check
  rw [hp]
  simp [hd]

/-- C10 (witness for the amended theorem): the port-bearing netloc
"roblox.com:443" ends in the digit '3', so the check rejects the URL. -/
theorem c10_netloc_comparison_witness :
    avatar_url_check "https://roblox.com:443/x" = "Invalid URL" :=
  c10_netloc_comparison.1 "https://roblox.com:443/x" "https" "roblox.com:443"
    '3' (by decide) (by decide) (by decide)

/-- C5: the response classification is a total function mapping each status
per the decision table — 404 → NotFound (no retry), 429 → RateLimited with
the header hint (retry), 400/401/403 → distinct client errors (no retry),
500-599 → ServerError (retry), remaining 4xx → generic HTTP error (no
retry), 2xx → Success or MalformedBody by body validity (no retry), and a
transport failure → TransportError (retry) — the explicit status cases
taking precedence over the generic `raise_for_status` handling. -/
theorem c5_classifier_table :
    (∀ (h : Option (Option ℚ)) (b : BodyModel),
      classify (AttemptResult.response 404 h b) = Outcome.notFound ∧
      outcome_retryable (classify (AttemptResult.response 404 h b)) = false)
    ∧ (∀ h b, classify (AttemptResult.response 429 h b) = Outcome.rateLimited h ∧
        outcome_retryable (classify (AttemptResult.response 429 h b)) = true)
    ∧ (∀ h b, classify (AttemptResult.response 400 h b) = Outcome.badRequest ∧
        outcome_retryable (classify (AttemptResult.response 400 h b)) = false)
    ∧ (∀ h b, classify (AttemptResult.response 401 h b) = Outcome.authRequired ∧
        outcome_retryable (classify (AttemptResult.response 401 h b)) = false)
    ∧ (∀ h b, classify (AttemptResult.response 403 h b) = Outcome.forbidden ∧
        outcome_retryable (classify (AttemptResult.response 403 h b)) = false)
    ∧ (∀ (s : Nat) (h : Option (Option ℚ)) (b : BodyModel), 500 ≤ s → s < 600 →
        classify (AttemptResult.response s h b) = Outcome.serverError s ∧
        outcome_retryable (classify (AttemptResult.response s h b)) = true)
    ∧ (∀ (s : Nat) (h : Option (Option ℚ)) (b : BodyModel), 400 ≤ s → s < 500 →
        s ≠ 400 → s ≠ 401 → s ≠ 403 → s ≠ 404 → s ≠ 429 →
        classify (AttemptResult.response s h b) = Outcome.otherHttp s ∧
        outcome_retryable (classify (AttemptResult.response s h b)) = false)
    ∧ (∀ (s : Nat) (h : Option (Option ℚ)) (b : BodyModel) fields, 200 ≤ s → s < 300 →
        validate_json_response b = some fields →
        classify (AttemptResult.response s h b) = Outcome.success fields ∧
        outcome_retryable (classify (AttemptResult.response s h b)) = false)
    ∧ (∀ (s : Nat) (h : Option (Option ℚ)) (b : BodyModel), 200 ≤ s → s < 300 →
        validate_json_response b = none →
        classify (AttemptResult.response s h b) = Outcome.malformedBody ∧
        outcome_retryable (classify (AttemptResult.response s h b)) = false)
    ∧ (classify AttemptResult.connError = Outcome.transportError ∧
        outcome_retryable (classify AttemptResult.connError) = true) := by
  refine ⟨?_, ?_, ?_, ?_, ?_, ?_, ?_, ?_, ?_, by constructor <;> rfl⟩
  · intro h b; constructor <;> rfl
  · intro h b; constructor <;> rfl
  · intro h b; constructor <;> rfl
  · intro h b; constructor <;> rfl
  · intro h b; constructor <;> rfl
  · intro s h b h5 h6
    have e : classify (AttemptResult.response s h b) = Outcome.serverError s := by
      have n4 : s ≠ 404 := by omega
      have n29 : s ≠ 429 := by omega
      have hge : 400 ≤ s := by omega
      simp [classify, beq_iff_eq, n4, n29, hge, h6, h5,
        show s ≠ 400 by omega, show s ≠ 401 by omega, show s ≠ 403 by omega]
    exact ⟨e, by rw [e]; rfl⟩
  · intro s h b h4 h5 n0 n1 n3 n4 n29
    have e : classify (AttemptResult.response s h b) = Outcome.otherHttp s := by
      simp [classify, beq_iff_eq, n0, n1, n3, n4, n29, h4,
        show s < 600 by omega, show ¬(500 ≤ s) by omega]
    exact ⟨e, by rw [e]; rfl⟩
  · intro s h b fields h2 h3 hv
    have e : classify (AttemptResult.response s h b) = Outcome.success fields := by
      simp [classify, beq_iff_eq, hv,
        show s ≠ 404 by omega, show s ≠ 429 by omega, show ¬(400 ≤ s) by omega]
    exact ⟨e, by rw [e]; rfl⟩
  · intro s h b h2 h3 hv
    have e : classify (AttemptResult.response s h b) = Outcome.malformedBody := by
      simp [classify, beq_iff_eq, hv,
        show s ≠ 404 by omega, show s ≠ 429 by omega, show ¬(400 ≤ s) by omega]
    exact ⟨e, by rw [e]; rfl⟩

/-- C5 (witness): a concrete 503 response is classified as a retryable
server error. -/
theorem c5_classifier_table_witness :
    classify (AttemptResult.response 503 none BodyModel.emptyBody) =
      Outcome.serverError 503 ∧
    outcome_retryable (classify (AttemptResult.response 503 none BodyModel.emptyBody)) =
      true :=
  c5_classifier_table.2.2.2.2.2.1 503 none BodyModel.emptyBody
    (by norm_num) (by norm_num)

/-- The deterministic backoff component is at least one second. -/
theorem one_le_backoff_base (attempt : Nat) : (1 : ℚ) ≤ backoff_base attempt := by
  unfold backoff_base
  apply le_min
  · have h := pow_le_pow_right₀ (show (1 : ℚ) ≤ 2 by norm_num) (Nat.zero_le attempt)
    simpa [BASE_RETRY_DELAY] using h
  · norm_num [MAX_RETRY_DELAY]

/-- For every jitter the RNG can draw (`uniform(0, delay * 0.5) ≥ 0`), the
computed backoff delay is non-negative, so `time.sleep` accepts it. -/
theorem calculate_retry_delay_nonneg (attempt : Nat) (jitter : ℚ)
    (h : 0 ≤ jitter) : 0 ≤ calculate_retry_delay attempt jitter := by
  have h1 := one_le_backoff_base attempt
  unfold calculate_retry_delay
  linarith

/-- A non-retryable outcome never makes the loop retry. -/
theorem fetch_step_done_of_not_retryable (attempt : Nat) (jitter : ℚ)
    (o : Outcome) (h : outcome_retryable o = false) :
    (fetch_step attempt jitter o).isRetry = false := by
  cases o with
  | success fields => rfl
  | notFound => rfl
  | rateLimited hint => exact absurd h (by simp [outcome_retryable])
  | badRequest => rfl
  | authRequired => rfl
  | forbidden => rfl
  | otherHttp s => rfl
  | serverError s => exact absurd h (by simp [outcome_retryable])
  | transportError => exact absurd h (by simp [outcome_retryable])
  | malformedBody => rfl

/-- A non-negative delay is slept through and the loop retries. -/
theorem sleep_then_continue_eq_retry (delay : ℚ) (h : ¬(delay < 0)) :
    sleep_then_continue delay = StepResult.retry delay := by
  unfold sleep_then_continue
  exact if_neg h

/-- A negative delay makes `time.sleep` raise, ending in the
unexpected-error terminal. -/
theorem sleep_then_continue_eq_done (delay : ℚ) (h : delay < 0) :
    sleep_then_continue delay = StepResult.done FetchResult.unexpectedError := by
  unfold sleep_then_continue
  exact if_pos h

/-- Before the last attempt, the rate-limited branch computes its delay
(hint override included) and sleeps. -/
theorem fetch_step_rateLimited_eq (attempt : Nat) (jitter : ℚ)
    (hint : Option (Option ℚ)) (hatt : attempt < MAX_RETRIES - 1) :
    fetch_step attempt jitter (Outcome.rateLimited hint) =
      sleep_then_continue
        (match hint with
         | some (some q) => min q MAX_RETRY_DELAY
         | _ => calculate_retry_delay attempt jitter) := by
  unfold fetch_step
  exact if_pos hatt

/-- Before the last attempt, a retryable outcome whose delay is legal — a
non-negative jitter draw and no negative parsed `Retry-After` hint — makes
the loop retry: the backoff sleep succeeds. -/
theorem fetch_step_retry_of_benign (attempt : Nat) (jitter : ℚ) (o : Outcome)
    (hatt : attempt < MAX_RETRIES - 1) (hj : 0 ≤ jitter)
    (hr : outcome_retryable o = true) (hh : hint_nonneg o) :
    (fetch_step attempt jitter o).isRetry = true := by
  have hcd : ¬(calculate_retry_delay attempt jitter < 0) :=
    not_lt.mpr (calculate_retry_delay_nonneg attempt jitter hj)
  cases o with
  | rateLimited hint =>
    rw [fetch_step_rateLimited_eq attempt jitter hint hatt]
    rcases hint with _ | hq
    · show (sleep_then_continue (calculate_retry_delay attempt jitter)).isRetry = true
      rw [sleep_then_continue_eq_retry _ hcd]
      rfl
    · rcases hq with _ | q
      · show (sleep_then_continue (calculate_retry_delay attempt jitter)).isRetry = true
        rw [sleep_then_continue_eq_retry _ hcd]
        rfl
      · have hq0 : (0 : ℚ) ≤ q := hh
        have hmin : ¬(min q MAX_RETRY_DELAY < 0) :=
          not_lt.mpr (le_min hq0 (by norm_num [MAX_RETRY_DELAY]))
        show (sleep_then_continue (min q MAX_RETRY_DELAY)).isRetry = true
        rw [sleep_then_continue_eq_retry _ hmin]
        rfl
  | serverError s =>
    show ((if attempt < MAX_RETRIES - 1 then
        StepResult.retry (calculate_retry_delay attempt jitter)
      else StepResult.done FetchResult.serverUnavailable)).isRetry = true
    rw [if_pos hatt]
    rfl
  | transportError =>
    show ((if attempt < MAX_RETRIES - 1 then
        StepResult.retry (calculate_retry_delay attempt jitter)
      else StepResult.done FetchResult.networkError)).isRetry = true
    rw [if_pos hatt]
    rfl
  | success fields => exact absurd hr (by simp [outcome_retryable])
  | notFound => exact absurd hr (by simp [outcome_retryable])
  | badRequest => exact absurd hr (by simp [outcome_retryable])
  | authRequired => exact absurd hr (by simp [outcome_retryable])
  | forbidden => exact absurd hr (by simp [outcome_retryable])
  | otherHttp s => exact absurd hr (by simp [outcome_retryable])
  | malformedBody => exact absurd hr (by simp [outcome_retryable])

/-- On the last attempt (2 = MAX_RETRIES − 1) the loop never retries. -/
theorem fetch_step_last_no_retry (jitter : ℚ) (o : Outcome) :
    (fetch_step 2 jitter o).isRetry = false := by
  cases o <;> rfl

/-- Before the last attempt, a completed step never carries one of the
exhaustion results (it may carry the unexpected-error result of a failed
sleep, which is also distinct from them). -/
theorem fetch_step_done_not_exhausted (attempt : Nat) (jitter : ℚ) (o : Outcome)
    (hatt : attempt < MAX_RETRIES - 1) (r : FetchResult)
    (h : fetch_step attempt jitter o = StepResult.done r) :
    r ≠ FetchResult.rateLimitExceeded ∧ r ≠ FetchResult.serverUnavailable ∧
      r ≠ FetchResult.networkError := by
  cases o with
  | rateLimited hint =>
    rw [fetch_step_rateLimited_eq attempt jitter hint hatt] at h
    unfold sleep_then_continue at h
    split at h
    · injection h with h'
      subst h'
      exact ⟨by decide, by decide, by decide⟩
    · exact StepResult.noConfusion h
  | serverError s =>
    have he : fetch_step attempt jitter (Outcome.serverError s) =
        StepResult.retry (calculate_retry_delay attempt jitter) := if_pos hatt
    rw [he] at h
    exact StepResult.noConfusion h
  | transportError =>
    have he : fetch_step attempt jitter Outcome.transportError =
        StepResult.retry (calculate_retry_delay attempt jitter) := if_pos hatt
    rw [he] at h
    exact StepResult.noConfusion h
  | success fields =>
    injection h with h'
    subst h'
    exact ⟨by simp, by simp, by simp⟩
  | notFound =>
    injection h with h'
    subst h'
    exact ⟨by decide, by decide, by decide⟩
  | badRequest =>
    injection h with h'
    subst h'
    exact ⟨by decide, by decide, by decide⟩
  | authRequired =>
    injection h with h'
    subst h'
    exact ⟨by decide, by decide, by decide⟩
  | forbidden =>
    injection h with h'
    subst h'
    exact ⟨by decide, by decide, by decide⟩
  | otherHttp s =>
    injection h with h'
    subst h'
    exact ⟨by simp, by simp, by simp⟩
  | malformedBody =>
    injection h with h'
    subst h'
    exact ⟨by decide, by decide, by decide⟩

/-- On the last attempt (2 = MAX_RETRIES − 1) every outcome completes, the
retryable ones with their exhaustion results. -/
theorem fetch_step_last_eq (jitter : ℚ) (o : Outcome) :
    fetch_step 2 jitter o =
      StepResult.done
        (match o with
         | Outcome.success fields => FetchResult.success (build_user_record fields)
         | Outcome.notFound => FetchResult.notFound
         | Outcome.rateLimited _ => FetchResult.rateLimitExceeded
         | Outcome.badRequest => FetchResult.badRequest
         | Outcome.authRequired => FetchResult.authRequired
         | Outcome.forbidden => FetchResult.forbidden
         | Outcome.otherHttp s => FetchResult.httpOther s
         | Outcome.serverError _ => FetchResult.serverUnavailable
         | Outcome.transportError => FetchResult.networkError
         | Outcome.malformedBody => FetchResult.invalidResponse) := by
  cases o <;> rfl

/-- On the last attempt, the step completes with RateLimitExceeded exactly
on a rate-limited outcome. -/
theorem fetch_step_last_rateLimit (jitter : ℚ) (o : Outcome) :
    fetch_step 2 jitter o = StepResult.done FetchResult.rateLimitExceeded ↔
      ∃ hint, o = Outcome.rateLimited hint := by
  rw [fetch_step_last_eq]
  cases o <;> simp

/-- On the last attempt, the step completes with ServerUnavailable exactly
on a server-error outcome. -/
theorem fetch_step_last_server (jitter : ℚ) (o : Outcome) :
    fetch_step 2 jitter o = StepResult.done FetchResult.serverUnavailable ↔
      ∃ s, o = Outcome.serverError s := by
  rw [fetch_step_last_eq]
  cases o <;> simp

/-- On the last attempt, the step completes with NetworkError exactly on a
transport-error outcome. -/
theorem fetch_step_last_transport (jitter : ℚ) (o : Outcome) :
    fetch_step 2 jitter o = StepResult.done FetchResult.networkError ↔
      o = Outcome.transportError := by
  rw [fetch_step_last_eq]
  cases o <;> simp

/-- The three-attempt loop, unfolded. -/
theorem fetch_user_information_unfold (env : Nat → AttemptResult)
    (jitter : Nat → ℚ) :
    fetch_user_information env jitter =
      match fetch_step 0 (jitter 0) (classify (env 0)) with
      | StepResult.done r => (r, 1)
      | StepResult.retry _ =>
        match fetch_step 1 (jitter 1) (classify (env 1)) with
        | StepResult.done r => (r, 2)
        | StepResult.retry _ =>
          match fetch_step 2 (jitter 2) (classify (env 2)) with
          | StepResult.done r => (r, 3)
          | StepResult.retry _ => (FetchResult.networkError, 3) := by
  show fetch_loop env jitter 0 3 = _
  cases h0 : fetch_step 0 (jitter 0) (classify (env 0)) with
  | done r => simp [fetch_loop, h0]
  | retry d =>
    cases h1 : fetch_step 1 (jitter 1) (classify (env 1)) with
    | done r => simp [fetch_loop, h0, h1]
    | retry d1 =>
      cases h2 : fetch_step 2 (jitter 2) (classify (env 2)) with
      | done r => simp [fetch_loop, h0, h1, h2]
      | retry d2 => simp [fetch_loop, h0, h1, h2]

/-- The run ends in RateLimitExceeded exactly when the first two attempts
were retried and the third outcome was rate-limited. -/
theorem fetch_rateLimitExceeded_iff (env : Nat → AttemptResult)
    (jitter : Nat → ℚ) :
    (fetch_user_information env jitter).1 = FetchResult.rateLimitExceeded ↔
      ((fetch_step 0 (jitter 0) (classify (env 0))).isRetry = true ∧
       (fetch_step 1 (jitter 1) (classify (env 1))).isRetry = true ∧
       ∃ hint, classify (env 2) = Outcome.rateLimited hint) := by
  rw [fetch_user_information_unfold]
  cases h0 : fetch_step 0 (jitter 0) (classify (env 0)) with
  | done r =>
    constructor
    · intro hr
      exact absurd hr
        (fetch_step_done_not_exhausted 0 (jitter 0) _ (by decide) r h0).1
    · rintro ⟨hr0, -, -⟩
      exact absurd hr0 (by simp [StepResult.isRetry])
  | retry d =>
    have hr0 : (StepResult.retry d).isRetry = true := rfl
    cases h1 : fetch_step 1 (jitter 1) (classify (env 1)) with
    | done r =>
      constructor
      · intro hr
        exact absurd hr
          (fetch_step_done_not_exhausted 1 (jitter 1) _ (by decide) r h1).1
      · rintro ⟨-, hr1, -⟩
        exact absurd hr1 (by simp [StepResult.isRetry])
    | retry d1 =>
      have hr1 : (StepResult.retry d1).isRetry = true := rfl
      cases h2 : fetch_step 2 (jitter 2) (classify (env 2)) with
      | done r =>
        constructor
        · intro hr
          rw [show r = FetchResult.rateLimitExceeded from hr] at h2
          exact ⟨hr0, hr1, (fetch_step_last_rateLimit (jitter 2) _).mp h2⟩
        · rintro ⟨-, -, hint, hcl⟩
          rw [hcl] at h2
          have he : fetch_step 2 (jitter 2) (Outcome.rateLimited hint) =
              StepResult.done FetchResult.rateLimitExceeded := rfl
          rw [he] at h2
          injection h2 with h
          exact h.symm
      | retry d2 =>
        exfalso
        have hno := fetch_step_last_no_retry (jitter 2) (classify (env 2))
        rw [h2] at hno
        exact absurd hno (by simp [StepResult.isRetry])

/-- The run ends in ServerUnavailable exactly when the first two attempts
were retried and the third outcome was a server error. -/
theorem fetch_serverUnavailable_iff (env : Nat → AttemptResult)
    (jitter : Nat → ℚ) :
    (fetch_user_information env jitter).1 = FetchResult.serverUnavailable ↔
      ((fetch_step 0 (jitter 0) (classify (env 0))).isRetry = true ∧
       (fetch_step 1 (jitter 1) (classify (env 1))).isRetry = true ∧
       ∃ s, classify (env 2) = Outcome.serverError s) := by
  rw [fetch_user_information_unfold]
  cases h0 : fetch_step 0 (jitter 0) (classify (env 0)) with
  | done r =>
    constructor
    · intro hr
      exact absurd hr
        (fetch_step_done_not_exhausted 0 (jitter 0) _ (by decide) r h0).2.1
    · rintro ⟨hr0, -, -⟩
      exact absurd hr0 (by simp [StepResult.isRetry])
  | retry d =>
    have hr0 : (StepResult.retry d).isRetry = true := rfl
    cases h1 : fetch_step 1 (jitter 1) (classify (env 1)) with
    | done r =>
      constructor
      · intro hr
        exact absurd hr
          (fetch_step_done_not_exhausted 1 (jitter 1) _ (by decide) r h1).2.1
      · rintro ⟨-, hr1, -⟩
        exact absurd hr1 (by simp [StepResult.isRetry])
    | retry d1 =>
      have hr1 : (StepResult.retry d1).isRetry = true := rfl
      cases h2 : fetch_step 2 (jitter 2) (classify (env 2)) with
      | done r =>
        constructor
        · intro hr
          rw [show r = FetchResult.serverUnavailable from hr] at h2
          exact ⟨hr0, hr1, (fetch_step_last_server (jitter 2) _).mp h2⟩
        · rintro ⟨-, -, s, hcl⟩
          rw [hcl] at h2
          have he : fetch_step 2 (jitter 2) (Outcome.serverError s) =
              StepResult.done FetchResult.serverUnavailable := rfl
          rw [he] at h2
          injection h2 with h
          exact h.symm
      | retry d2 =>
        exfalso
        have hno := fetch_step_last_no_retry (jitter 2) (classify (env 2))
        rw [h2] at hno
        exact absurd hno (by simp [StepResult.isRetry])

/-- The run ends in NetworkError exactly when the first two attempts were
retried and the third outcome was a transport error. -/
theorem fetch_networkError_iff (env : Nat → AttemptResult)
    (jitter : Nat → ℚ) :
    (fetch_user_information env jitter).1 = FetchResult.networkError ↔
      ((fetch_step 0 (jitter 0) (classify (env 0))).isRetry = true ∧
       (fetch_step 1 (jitter 1) (classify (env 1))).isRetry = true ∧
       classify (env 2) = Outcome.transportError) := by
  rw [fetch_user_information_unfold]
  cases h0 : fetch_step 0 (jitter 0) (classify (env 0)) with
  | done r =>
    constructor
    · intro hr
      exact absurd hr
        (fetch_step_done_not_exhausted 0 (jitter 0) _ (by decide) r h0).2.2
    · rintro ⟨hr0, -, -⟩
      exact absurd hr0 (by simp [StepResult.isRetry])
  | retry d =>
    have hr0 : (StepResult.retry d).isRetry = true := rfl
    cases h1 : fetch_step 1 (jitter 1) (classify (env 1)) with
    | done r =>
      constructor
      · intro hr
        exact absurd hr
          (fetch_step_done_not_exhausted 1 (jitter 1) _ (by decide) r h1).2.2
      · rintro ⟨-, hr1, -⟩
        exact absurd hr1 (by simp [StepResult.isRetry])
    | retry d1 =>
      have hr1 : (StepResult.retry d1).isRetry = true := rfl
      cases h2 : fetch_step 2 (jitter 2) (classify (env 2)) with
      | done r =>
        constructor
        · intro hr
          rw [show r = FetchResult.networkError from hr] at h2
          exact ⟨hr0, hr1, (fetch_step_last_transport (jitter 2) _).mp h2⟩
        · rintro ⟨-, -, hcl⟩
          rw [hcl] at h2
          have he : fetch_step 2 (jitter 2) Outcome.transportError =
              StepResult.done FetchResult.networkError := rfl
          rw [he] at h2
          injection h2 with h
          exact h.symm
      | retry d2 =>
        exfalso
        have hno := fetch_step_last_no_retry (jitter 2) (classify (env 2))
        rw [h2] at hno
        exact absurd hno (by simp [StepResult.isRetry])

/-- C7 (counterexample): a parsed negative `Retry-After` hint (−5) on a 429
at attempt 0 is not usable and the 429 is not retried: the source reaches
`time.sleep(-5.0)`, which raises `ValueError`, and `except Exception`
(line 305) turns that into the unexpected-error terminal — the step
completes instead of retrying with min(−5, 30). -/
theorem c7_counterexample_negative_hint :
    fetch_step 0 0 (classify (AttemptResult.response 429 (some (some (-5)))
        BodyModel.emptyBody)) =
      StepResult.done FetchResult.unexpectedError
    ∧ (fetch_step 0 0 (classify (AttemptResult.response 429 (some (some (-5)))
        BodyModel.emptyBody))).isRetry = false := by
  have hstep : fetch_step 0 0 (classify (AttemptResult.response 429
      (some (some (-5))) BodyModel.emptyBody)) =
      StepResult.done FetchResult.unexpectedError := by
    show fetch_step 0 0 (Outcome.rateLimited (some (some (-5)))) =
      StepResult.done FetchResult.unexpectedError
    rw [fetch_step_rateLimited_eq 0 0 _ (by decide)]
    show sleep_then_continue (min (-5 : ℚ) MAX_RETRY_DELAY) =
      StepResult.done FetchResult.unexpectedError
    exact sleep_then_continue_eq_done _
      (lt_of_le_of_lt (min_le_left _ _) (by norm_num))
  exact ⟨hstep, by rw [hstep]; rfl⟩

/-- C7 (amended): on a 429 that will be retried, a parsed non-negative
`Retry-After` hint takes precedence over the computed exponential backoff
as min(hint, MAX_DELAY); an absent (or empty, hence falsy) or unparsable
hint is ignored and the computed exponential-with-jitter delay is used; a
hint of 0 is usable (delay 0, no lower-bound clamp); but a negative parsed
hint makes the backoff `time.sleep` raise `ValueError`, so the attempt ends
in the unexpected-error terminal instead of retrying. -/
theorem c7_retry_after_hint :
    (∀ (attempt : Nat) (jitter q : ℚ) (b : BodyModel),
      attempt < MAX_RETRIES - 1 → 0 ≤ q →
      fetch_step attempt jitter
          (classify (AttemptResult.response 429 (some (some q)) b)) =
        StepResult.retry (min q MAX_RETRY_DELAY))
    ∧ (∀ (attempt : Nat) (jitter : ℚ) (b : BodyModel),
        attempt < MAX_RETRIES - 1 → 0 ≤ jitter →
        fetch_step attempt jitter
            (classify (AttemptResult.response 429 (some none) b)) =
          StepResult.retry (calculate_retry_delay attempt jitter))
    ∧ (∀ (attempt : Nat) (jitter : ℚ) (b : BodyModel),
        attempt < MAX_RETRIES - 1 → 0 ≤ jitter →
        fetch_step attempt jitter
            (classify (AttemptResult.response 429 none b)) =
          StepResult.retry (calculate_retry_delay attempt jitter))
    ∧ (∀ (jitter : ℚ) (b : BodyModel),
        fetch_step 0 jitter
            (classify (AttemptResult.response 429 (some (some 0)) b)) =
          StepResult.retry 0)
    ∧ (∀ (attempt : Nat) (jitter q : ℚ) (b : BodyModel),
        attempt < MAX_RETRIES - 1 → q < 0 →
        fetch_step attempt jitter
            (classify (AttemptResult.response 429 (some (some q)) b)) =
          StepResult.done FetchResult.unexpectedError) := by
  refine ⟨?_, ?_, ?_, ?_, ?_⟩
  · intro attempt jitter q b hatt hq
    have hmin : ¬(min q MAX_RETRY_DELAY < 0) :=
      not_lt.mpr (le_min hq (by norm_num [MAX_RETRY_DELAY]))
    show fetch_step attempt jitter (Outcome.rateLimited (some (some q))) =
      StepResult.retry (min q MAX_RETRY_DELAY)
    rw [fetch_step_rateLimited_eq attempt jitter _ hatt]
    show sleep_then_continue (min q MAX_RETRY_DELAY) =
      StepResult.retry (min q MAX_RETRY_DELAY)
    exact sleep_then_continue_eq_retry _ hmin
  · intro attempt jitter b hatt hj
    have hcd : ¬(calculate_retry_delay attempt jitter < 0) :=
      not_lt.mpr (calculate_retry_delay_nonneg attempt jitter hj)
    show fetch_step attempt jitter (Outcome.rateLimited (some none)) =
      StepResult.retry (calculate_retry_delay attempt jitter)
    rw [fetch_step_rateLimited_eq attempt jitter _ hatt]
    show sleep_then_continue (calculate_retry_delay attempt jitter) =
      StepResult.retry (calculate_retry_delay attempt jitter)
    exact sleep_then_continue_eq_retry _ hcd
  · intro attempt jitter b hatt hj
    have hcd : ¬(calculate_retry_delay attempt jitter < 0) :=
      not_lt.mpr (calculate_retry_delay_nonneg attempt jitter hj)
    show fetch_step attempt jitter (Outcome.rateLimited none) =
      StepResult.retry (calculate_retry_delay attempt jitter)
    rw [fetch_step_rateLimited_eq attempt jitter _ hatt]
    show sleep_then_continue (calculate_retry_delay attempt jitter) =
      StepResult.retry (calculate_retry_delay attempt jitter)
    exact sleep_then_continue_eq_retry _ hcd
  · intro jitter b
    show fetch_step 0 jitter (Outcome.rateLimited (some (some 0))) =
      StepResult.retry 0
    rw [fetch_step_rateLimited_eq 0 jitter _ (by decide)]
    show sleep_then_continue (min (0 : ℚ) MAX_RETRY_DELAY) = StepResult.retry 0
    rw [show min (0 : ℚ) MAX_RETRY_DELAY = 0 from by
      rw [min_eq_left]; norm_num [MAX_RETRY_DELAY]]
    exact sleep_then_continue_eq_retry _ (by norm_num)
  · intro attempt jitter q b hatt hq
    show fetch_step attempt jitter (Outcome.rateLimited (some (some q))) =
      StepResult.done FetchResult.unexpectedError
    rw [fetch_step_rateLimited_eq attempt jitter _ hatt]
    show sleep_then_continue (min q MAX_RETRY_DELAY) =
      StepResult.done FetchResult.unexpectedError
    exact sleep_then_continue_eq_done _ (lt_of_le_of_lt (min_le_left _ _) hq)

/-- C7 (witness for the amended theorem): at attempt 0 a parsed hint of
7 seconds is used after capping at 30. -/
theorem c7_retry_after_hint_witness :
    fetch_step 0 2 (classify (AttemptResult.response 429 (some (some 7))
        BodyModel.emptyBody)) =
      StepResult.retry (min 7 MAX_RETRY_DELAY) :=
  c7_retry_after_hint.1 0 2 7 BodyModel.emptyBody (by norm_num [MAX_RETRIES])
    (by norm_num)

/-- C4 (counterexample): the first attempt's outcome is retryable (a 429),
yet no second attempt is issued: its parsed `Retry-After` hint −5 makes the
backoff sleep raise, and the run terminates with the unexpected-error
result after exactly one HTTP attempt — so "a retryable outcome at attempt
n < 2 triggers a backoff sleep and attempt n+1" fails on this input. -/
theorem c4_counterexample_no_second_attempt :
    outcome_retryable (classify (AttemptResult.response 429 (some (some (-5)))
        BodyModel.emptyBody)) = true
    ∧ fetch_user_information
        (fun _ => AttemptResult.response 429 (some (some (-5))) BodyModel.emptyBody)
        (fun _ => 0) = (FetchResult.unexpectedError, 1) := by
  constructor
  · rfl
  · rw [fetch_user_information_unfold]
    have hstep : fetch_step 0 (0 : ℚ) (classify (AttemptResult.response 429
        (some (some (-5))) BodyModel.emptyBody)) =
        StepResult.done FetchResult.unexpectedError := by
      show fetch_step 0 0 (Outcome.rateLimited (some (some (-5)))) =
        StepResult.done FetchResult.unexpectedError
      rw [fetch_step_rateLimited_eq 0 0 _ (by decide)]
      show sleep_then_continue (min (-5 : ℚ) MAX_RETRY_DELAY) =
        StepResult.done FetchResult.unexpectedError
      exact sleep_then_continue_eq_done _
        (lt_of_le_of_lt (min_le_left _ _) (by norm_num))
    simp [hstep]

/-- C4 (amended): the orchestrator issues at most MAX_RETRIES = 3 HTTP
attempts; a non-retryable first outcome ends after 1 attempt; a retryable
outcome at attempt n < 2 triggers a backoff sleep and attempt n+1 provided
the sleep delay is non-negative (any jitter draw the RNG can produce, and
no negative parsed `Retry-After` hint) — a negative hint instead makes the
sleep raise and the run ends with the unexpected-error result after that
attempt; with two benign retryable outcomes exactly 3 attempts are issued
whatever the third outcome is, so a retryable outcome at attempt 2
terminates the call with no further network call. -/
theorem c4_attempt_bound :
    (∀ (env : Nat → AttemptResult) (jitter : Nat → ℚ),
      (fetch_user_information env jitter).2 ≤ MAX_RETRIES)
    ∧ (∀ (env : Nat → AttemptResult) (jitter : Nat → ℚ),
        outcome_retryable (classify (env 0)) = false →
        (fetch_user_information env jitter).2 = 1)
    ∧ (∀ (env : Nat → AttemptResult) (jitter : Nat → ℚ),
        0 ≤ jitter 0 →
        outcome_retryable (classify (env 0)) = true →
        hint_nonneg (classify (env 0)) →
        outcome_retryable (classify (env 1)) = false →
        (fetch_user_information env jitter).2 = 2)
    ∧ (∀ (env : Nat → AttemptResult) (jitter : Nat → ℚ),
        0 ≤ jitter 0 → 0 ≤ jitter 1 →
        outcome_retryable (classify (env 0)) = true →
        hint_nonneg (classify (env 0)) →
        outcome_retryable (classify (env 1)) = true →
        hint_nonneg (classify (env 1)) →
        (fetch_user_information env jitter).2 = MAX_RETRIES)
    ∧ (∀ (env : Nat → AttemptResult) (jitter : Nat → ℚ) (q : ℚ),
        classify (env 0) = Outcome.rateLimited (some (some q)) → q < 0 →
        fetch_user_information env jitter = (FetchResult.unexpectedError, 1)) := by
  refine ⟨?_, ?_, ?_, ?_, ?_⟩
  · intro env jitter
    rw [fetch_user_information_unfold]
    cases h0 : fetch_step 0 (jitter 0) (classify (env 0)) with
    | done r => simp [MAX_RETRIES]
    | retry d =>
      cases h1 : fetch_step 1 (jitter 1) (classify (env 1)) with
      | done r => simp [MAX_RETRIES]
      | retry d1 =>
        cases h2 : fetch_step 2 (jitter 2) (classify (env 2)) with
        | done r => simp [MAX_RETRIES]
        | retry d2 => simp [MAX_RETRIES]
  · intro env jitter h
    rw [fetch_user_information_unfold]
    cases h0 : fetch_step 0 (jitter 0) (classify (env 0)) with
    | done r => simp
    | retry d =>
      exfalso
      have hn := fetch_step_done_of_not_retryable 0 (jitter 0) _ h
      rw [h0] at hn
      exact absurd hn (by simp [StepResult.isRetry])
  · intro env jitter hj0 hr0 hh0 hr1
    have hs0 := fetch_step_retry_of_benign 0 (jitter 0) _ (by decide) hj0 hr0 hh0
    rw [fetch_user_information_unfold]
    cases h0 : fetch_step 0 (jitter 0) (classify (env 0)) with
    | done r =>
      exfalso
      rw [h0] at hs0
      exact absurd hs0 (by simp [StepResult.isRetry])
    | retry d =>
      cases h1 : fetch_step 1 (jitter 1) (classify (env 1)) with
      | done r => simp
      | retry d1 =>
        exfalso
        have hn := fetch_step_done_of_not_retryable 1 (jitter 1) _ hr1
        rw [h1] at hn
        exact absurd hn (by simp [StepResult.isRetry])
  · intro env jitter hj0 hj1 hr0 hh0 hr1 hh1
    have hs0 := fetch_step_retry_of_benign 0 (jitter 0) _ (by decide) hj0 hr0 hh0
    have hs1 := fetch_step_retry_of_benign 1 (jitter 1) _ (by decide) hj1 hr1 hh1
    rw [fetch_user_information_unfold]
    cases h0 : fetch_step 0 (jitter 0) (classify (env 0)) with
    | done r =>
      exfalso
      rw [h0] at hs0
      exact absurd hs0 (by simp [StepResult.isRetry])
    | retry d =>
      cases h1 : fetch_step 1 (jitter 1) (classify (env 1)) with
      | done r =>
        exfalso
        rw [h1] at hs1
        exact absurd hs1 (by simp [StepResult.isRetry])
      | retry d1 =>
        cases h2 : fetch_step 2 (jitter 2) (classify (env 2)) with
        | done r => simp [MAX_RETRIES]
        | retry d2 => simp [MAX_RETRIES]
  · intro env jitter q hcl hq
    rw [fetch_user_information_unfold]
    have hstep : fetch_step 0 (jitter 0) (classify (env 0)) =
        StepResult.done FetchResult.unexpectedError := by
      rw [hcl]
      rw [fetch_step_rateLimited_eq 0 (jitter 0) _ (by decide)]
      show sleep_then_continue (min q MAX_RETRY_DELAY) =
        StepResult.done FetchResult.unexpectedError
      exact sleep_then_continue_eq_done _ (lt_of_le_of_lt (min_le_left _ _) hq)
    rw [hstep]

/-- C4 (witness for the amended theorem): three consecutive 429 responses
without a hint issue exactly 3 attempts. -/
theorem c4_attempt_bound_witness :
    (fetch_user_information
        (fun _ => AttemptResult.response 429 none BodyModel.emptyBody)
        (fun _ => 0)).2 = MAX_RETRIES :=
  c4_attempt_bound.2.2.2.1
    (fun _ => AttemptResult.response 429 none BodyModel.emptyBody)
    (fun _ => 0) (le_refl 0) (le_refl 0) (by decide) (by trivial)
    (by decide) (by trivial)

/-- C6: whenever retries are exhausted — the first two attempts were
retried and the third outcome is again retryable — the orchestrator
surfaces the dedicated terminal failure matching that outcome
(RateLimitExceeded / ServerUnavailable / NetworkError), and each of these
results arises exactly in that situation, so the caller can distinguish
"still failing after retries" from every single-attempt outcome, including
the unexpected-error terminal of a failed backoff sleep. -/
theorem c6_exhaustion_distinct :
    (∀ (env : Nat → AttemptResult) (jitter : Nat → ℚ),
      (fetch_user_information env jitter).1 = FetchResult.rateLimitExceeded ↔
        ((fetch_step 0 (jitter 0) (classify (env 0))).isRetry = true ∧
         (fetch_step 1 (jitter 1) (classify (env 1))).isRetry = true ∧
         ∃ hint, classify (env 2) = Outcome.rateLimited hint))
    ∧ (∀ (env : Nat → AttemptResult) (jitter : Nat → ℚ),
        (fetch_user_information env jitter).1 = FetchResult.serverUnavailable ↔
          ((fetch_step 0 (jitter 0) (classify (env 0))).isRetry = true ∧
           (fetch_step 1 (jitter 1) (classify (env 1))).isRetry = true ∧
           ∃ s, classify (env 2) = Outcome.serverError s))
    ∧ (∀ (env : Nat → AttemptResult) (jitter : Nat → ℚ),
        (fetch_user_information env jitter).1 = FetchResult.networkError ↔
          ((fetch_step 0 (jitter 0) (classify (env 0))).isRetry = true ∧
           (fetch_step 1 (jitter 1) (classify (env 1))).isRetry = true ∧
           classify (env 2) = Outcome.transportError))
    ∧ (∀ (env : Nat → AttemptResult) (jitter : Nat → ℚ),
        0 ≤ jitter 0 → 0 ≤ jitter 1 →
        outcome_retryable (classify (env 0)) = true →
        hint_nonneg (classify (env 0)) →
        outcome_retryable (classify (env 1)) = true →
        hint_nonneg (classify (env 1)) →
        outcome_retryable (classify (env 2)) = true →
        ((fetch_user_information env jitter).1 = FetchResult.rateLimitExceeded ∨
         (fetch_user_information env jitter).1 = FetchResult.serverUnavailable ∨
         (fetch_user_information env jitter).1 = FetchResult.networkError)) := by
  refine ⟨fetch_rateLimitExceeded_iff, fetch_serverUnavailable_iff,
    fetch_networkError_iff, ?_⟩
  intro env jitter hj0 hj1 hr0 hh0 hr1 hh1 hr2
  have hs0 : (fetch_step 0 (jitter 0) (classify (env 0))).isRetry = true :=
    fetch_step_retry_of_benign 0 (jitter 0) _ (by decide) hj0 hr0 hh0
  have hs1 : (fetch_step 1 (jitter 1) (classify (env 1))).isRetry = true :=
    fetch_step_retry_of_benign 1 (jitter 1) _ (by decide) hj1 hr1 hh1
  cases hcl : classify (env 2) with
  | rateLimited hint =>
    exact Or.inl ((fetch_rateLimitExceeded_iff env jitter).mpr ⟨hs0, hs1, hint, hcl⟩)
  | serverError s =>
    exact Or.inr (Or.inl
      ((fetch_serverUnavailable_iff env jitter).mpr ⟨hs0, hs1, s, hcl⟩))
  | transportError =>
    exact Or.inr (Or.inr ((fetch_networkError_iff env jitter).mpr ⟨hs0, hs1, hcl⟩))
  | success fields =>
    rw [hcl] at hr2
    exact absurd hr2 (by simp [outcome_retryable])
  | notFound =>
    rw [hcl] at hr2
    exact absurd hr2 (by simp [outcome_retryable])
  | badRequest =>
    rw [hcl] at hr2
    exact absurd hr2 (by simp [outcome_retryable])
  | authRequired =>
    rw [hcl] at hr2
    exact absurd hr2 (by simp [outcome_retryable])
  | forbidden =>
    rw [hcl] at hr2
    exact absurd hr2 (by simp [outcome_retryable])
  | otherHttp s =>
    rw [hcl] at hr2
    exact absurd hr2 (by simp [outcome_retryable])
  | malformedBody =>
    rw [hcl] at hr2
    exact absurd hr2 (by simp [outcome_retryable])

/-- C6 (witness for the exhaustion conjunct): three consecutive 429
responses end in one of the dedicated exhaustion results. -/
theorem c6_exhaustion_distinct_witness :
    (fetch_user_information
        (fun _ => AttemptResult.response 429 none BodyModel.emptyBody)
        (fun _ => 0)).1 = FetchResult.rateLimitExceeded ∨
    (fetch_user_information
        (fun _ => AttemptResult.response 429 none BodyModel.emptyBody)
        (fun _ => 0)).1 = FetchResult.serverUnavailable ∨
    (fetch_user_information
        (fun _ => AttemptResult.response 429 none BodyModel.emptyBody)
        (fun _ => 0)).1 = FetchResult.networkError :=
  c6_exhaustion_distinct.2.2.2
    (fun _ => AttemptResult.response 429 none BodyModel.emptyBody)
    (fun _ => 0) (le_refl 0) (le_refl 0) (by decide) (by trivial)
    (by decide) (by trivial) (by decide)

/-- C8 (counterexample): for the object body `{"name": 5}` the wrong-typed
(truthy, non-string) "name" field does not degrade to its documented
sentinel "Unknown" — it is coerced with `str()` to "5" — although the
record is still built. -/
theorem c8_counterexample_wrong_typed_name :
    (build_user_record [("name", JsonVal.num 5)]).username = "5" ∧
    (build_user_record [("name", JsonVal.num 5)]).username ≠ "Unknown" := by
  exact ⟨rfl, by decide⟩

/-- C8 (amended): each of the six fields is extracted and coerced
independently (its value depends only on its own key) and no field ever
fails the record; a missing field yields its sentinel; a wrong-typed
created / avatarUrl / count field degrades to a sentinel, while a truthy
wrong-typed name / displayName is coerced with `str()` rather than replaced
by "Unknown" (only missing or falsy values give "Unknown"); and only an
empty, unparsable or non-object body is a hard MalformedBody failure (no
partial record). -/
theorem c8_field_independence :
    (∀ b : BodyModel, validate_json_response b = none ↔
      ∀ fields, b ≠ BodyModel.value (JsonVal.obj fields))
    ∧ (∀ fields, validate_json_response (BodyModel.value (JsonVal.obj fields)) =
        some fields)
    ∧ (∀ d₁ d₂, pyGet d₁ "name" = pyGet d₂ "name" →
        (build_user_record d₁).username = (build_user_record d₂).username)
    ∧ (∀ d₁ d₂, pyGet d₁ "displayName" = pyGet d₂ "displayName" →
        (build_user_record d₁).display_name = (build_user_record d₂).display_name)
    ∧ (∀ d₁ d₂, pyGet d₁ "created" = pyGet d₂ "created" →
        (build_user_record d₁).created_date = (build_user_record d₂).created_date)
    ∧ (∀ d₁ d₂, pyGet d₁ "avatarUrl" = pyGet d₂ "avatarUrl" →
        (build_user_record d₁).avatar_url = (build_user_record d₂).avatar_url)
    ∧ (∀ d₁ d₂, pyGet d₁ "followersCount" = pyGet d₂ "followersCount" →
        (build_user_record d₁).followers_count = (build_user_record d₂).followers_count)
    ∧ (∀ d₁ d₂, pyGet d₁ "friendsCount" = pyGet d₂ "friendsCount" →
        (build_user_record d₁).friends_count = (build_user_record d₂).friends_count)
    ∧ build_user_record [] =
        { username := "Unknown", display_name := "Unknown",
          created_date := "Unknown", avatar_url := "Not available",
          followers_count := "Not available", friends_count := "Not available" }
    ∧ (∀ d v, pyGet d "created" = some v → (∀ s, v ≠ JsonVal.str s) →
        (build_user_record d).created_date = "Unknown" ∨
        (build_user_record d).created_date = "Invalid date format")
    ∧ (∀ d v, pyGet d "avatarUrl" = some v → (∀ s, v ≠ JsonVal.str s) →
        (build_user_record d).avatar_url = "Not available" ∨
        (build_user_record d).avatar_url = "Invalid URL")
    ∧ (∀ d v, pyGet d "followersCount" = some v →
        (∀ n, v ≠ JsonVal.num n) → (∀ bb, v ≠ JsonVal.bool bb) →
        (build_user_record d).followers_count = "Not available")
    ∧ (∀ d n, pyGet d "followersCount" = some (JsonVal.num n) → n < 0 →
        (build_user_record d).followers_count = "Not available")
    ∧ (∀ d v, pyGet d "name" = some v → pyTruthy v = false →
        (build_user_record d).username = "Unknown")
    ∧ (∀ d v, pyGet d "name" = some v → pyTruthy v = true →
        (build_user_record d).username = pyStr v) := by
  refine ⟨?_, fun fields => rfl, ?_, ?_, ?_, ?_, ?_, ?_, rfl, ?_, ?_, ?_, ?_, ?_, ?_⟩
  · intro b
    cases b with
    | emptyBody => simp [validate_json_response]
    | unparsable => simp [validate_json_response]
    | value v => cases v <;> simp [validate_json_response]
  · intro d₁ d₂ h
    simp [build_user_record, extract_name, h]
  · intro d₁ d₂ h
    simp [build_user_record, extract_name, h]
  · intro d₁ d₂ h
    simp [build_user_record, h]
  · intro d₁ d₂ h
    simp [build_user_record, h]
  · intro d₁ d₂ h
    simp [build_user_record, safe_get_count, h]
  · intro d₁ d₂ h
    simp [build_user_record, safe_get_count, h]
  · intro d v hv hns
    have : (build_user_record d).created_date = parse_date (some v) := by
      simp [build_user_record, hv]
    rw [this]
    by_cases ht : pyTruthy v = true
    · right
      cases v with
      | str s => exact absurd rfl (hns s)
      | null => exact absurd ht (by decide)
      | bool b => simp [parse_date, ht]
      | num n => simp [parse_date, ht]
      | arr l => simp [parse_date, ht]
      | obj l => simp [parse_date, ht]
    · left
      simp only [Bool.not_eq_true] at ht
      simp [parse_date, ht]
  · intro d v hv hns
    have : (build_user_record d).avatar_url = validate_avatar_url v := by
      simp [build_user_record, hv]
    rw [this]
    by_cases ht : pyTruthy v = true
    · right
      cases v with
      | str s => exact absurd rfl (hns s)
      | null => exact absurd ht (by decide)
      | bool b => simp [validate_avatar_url, ht]
      | num n => simp [validate_avatar_url, ht]
      | arr l => simp [validate_avatar_url, ht]
      | obj l => simp [validate_avatar_url, ht]
    · left
      simp only [Bool.not_eq_true] at ht
      simp [validate_avatar_url, ht]
  · intro d v hv hnn hnb
    have : (build_user_record d).followers_count =
        safe_get_count d "followersCount" := rfl
    rw [this]
    unfold safe_get_count
    rw [hv]
    cases v with
    | num n => exact absurd rfl (hnn n)
    | bool b => exact absurd rfl (hnb b)
    | null => rfl
    | str s => rfl
    | arr l => rfl
    | obj l => rfl
  · intro d n hv hn
    have : (build_user_record d).followers_count =
        safe_get_count d "followersCount" := rfl
    rw [this]
    unfold safe_get_count
    rw [hv]
    simp [hn]
  · intro d v hv ht
    simp [build_user_record, extract_name, hv, ht]
  · intro d v hv ht
    simp [build_user_record, extract_name, hv, ht]

/-- C8 (witness for the amended theorem): the wrong-typed truthy "created"
value `[1]` degrades to a date sentinel while the record is still built. -/
theorem c8_field_independence_witness :
    (build_user_record [("created", JsonVal.arr [JsonVal.num 1])]).created_date
        = "Unknown" ∨
    (build_user_record [("created", JsonVal.arr [JsonVal.num 1])]).created_date
        = "Invalid date format" :=
  c8_field_independence.2.2.2.2.2.2.2.2.2.1
    [("created", JsonVal.arr [JsonVal.num 1])] (JsonVal.arr [JsonVal.num 1])
    rfl (fun _ h => JsonVal.noConfusion h)
